import Mathlib

/-!
Shallow embedding of the Pomodoro timer core from `pomodoro.py`.

The mutable object `PomodoroTimer` is modelled as an immutable record; each
Python method becomes a function from the record (plus the current wall-clock
reading, where the method calls `time.time()`) to a new record.  Wall-clock
readings are rationals (Python floats carry fractional seconds); `time_left`
is an integer, as in Python.  Threading, curses rendering and the desktop
notification delivery are I/O glue outside the timer core; the body of the
background loop `_run_timer` is modelled as the single-iteration function
`run_timer_tick`, with its loop-local `notification_sent` flag threaded
explicitly and its display-refresh bookkeeping (`last_update_time`) omitted,
since that state only throttles screen redraws.  Bell and notification calls
are modelled as emitted events.
-/

namespace Pomodoro

/-- The `State` enumeration from `pomodoro.py`. -/
inductive State where
  | WORK
  | SHORT_BREAK
  | LONG_BREAK
  | PAUSED
  | IDLE
  deriving DecidableEq

/-- The `PomodoroSettings` dataclass: durations in seconds, the cycle
threshold, and the integer time-acceleration factor. -/
structure PomodoroSettings where
  work_duration : ℕ := 25 * 60
  short_break_duration : ℕ := 5 * 60
  long_break_duration : ℕ := 15 * 60
  cycles_before_long_break : ℕ := 4
  time_acceleration : ℕ := 1
  enable_notifications : Bool := true
  deriving DecidableEq

/-- The mutable fields of the `PomodoroTimer` object (the `timer_thread` and
`stdscr` handles are threading/rendering glue and are not part of the timer
state proper). -/
structure PomodoroTimer where
  settings : PomodoroSettings
  current_state : State
  time_left : ℤ
  cycles_completed : ℕ
  is_running : Bool
  pause_timer : Bool
  start_time : Option ℚ
  deriving DecidableEq

/-- `PomodoroTimer.__init__`. -/
def PomodoroTimer.init (settings : PomodoroSettings) : PomodoroTimer :=
  { settings := settings
    current_state := State.IDLE
    time_left := 0
    cycles_completed := 0
    is_running := false
    pause_timer := false
    start_time := none }

/-- `PomodoroTimer.start`, with `now` the reading `time.time()` returns at
line 109.  The thread-spawning block is omitted (the loop itself is modelled
by `run_timer_tick`). -/
def PomodoroTimer.start (t : PomodoroTimer) (now : ℚ) : PomodoroTimer :=
  if t.current_state = State.IDLE ∨ t.current_state = State.PAUSED then
    let t2 :=
      if t.current_state = State.IDLE then
        { t with current_state := State.WORK
                 time_left := (t.settings.work_duration : ℤ) }
      else t
    { t2 with pause_timer := false, is_running := true, start_time := some now }
  else t

/-- `PomodoroTimer.pause`. -/
def PomodoroTimer.pause (t : PomodoroTimer) : PomodoroTimer :=
  if t.is_running then
    { t with pause_timer := true, current_state := State.PAUSED }
  else t

/-- `PomodoroTimer.resume`: clears `pause_timer` and delegates to `start`. -/
def PomodoroTimer.resume (t : PomodoroTimer) (now : ℚ) : PomodoroTimer :=
  if t.current_state = State.PAUSED then
    ({ t with pause_timer := false }).start now
  else t

/-- `PomodoroTimer._transition_to_next_state`.  Note that in Python a zero
`cycles_before_long_break` would raise `ZeroDivisionError` at the `%`; the
theorems about this function therefore assume the threshold is positive, as
the configuration contract in the spec requires. -/
def PomodoroTimer.transition_to_next_state (t : PomodoroTimer) : PomodoroTimer :=
  if t.current_state = State.WORK then
    if (t.cycles_completed + 1) % t.settings.cycles_before_long_break = 0 then
      { t with cycles_completed := t.cycles_completed + 1
               current_state := State.LONG_BREAK
               time_left := (t.settings.long_break_duration : ℤ) }
    else
      { t with cycles_completed := t.cycles_completed + 1
               current_state := State.SHORT_BREAK
               time_left := (t.settings.short_break_duration : ℤ) }
  else
    { t with current_state := State.WORK
             time_left := (t.settings.work_duration : ℤ) }

/-- `PomodoroTimer.skip`: transition, then `start_time = time.time()`. -/
def PomodoroTimer.skip (t : PomodoroTimer) (now : ℚ) : PomodoroTimer :=
  { t.transition_to_next_state with start_time := some now }

/-- `PomodoroTimer.reset` (thread-join bookkeeping omitted).  Note that it
does not touch `pause_timer`. -/
def PomodoroTimer.reset (t : PomodoroTimer) : PomodoroTimer :=
  { t with is_running := false
           current_state := State.IDLE
           cycles_completed := 0
           time_left := 0 }

/-- Python `int()` applied to a rational: truncation toward zero. -/
def pyInt (q : ℚ) : ℤ := q.num.tdiv q.den

/-- `max(0, duration - int(accelerated_elapsed))`, the shape of each of the
three `time_left` assignments at lines 199/201/203. -/
def computeLeft (d : ℕ) (e : ℚ) : ℤ := max 0 ((d : ℤ) - pyInt e)

/-- The duration the recomputation branch of `_run_timer` uses: `WORK` and
`SHORT_BREAK` select their own durations, and the trailing `else` (commented
"Long break" in the source) catches every other state, including `PAUSED`. -/
def nominal_for_tick (t : PomodoroTimer) : ℕ :=
  if t.current_state = State.WORK then t.settings.work_duration
  else if t.current_state = State.SHORT_BREAK then t.settings.short_break_duration
  else t.settings.long_break_duration

/-- The fresh `time_left` computed by one non-transition iteration of
`_run_timer`: `accelerated_elapsed = (time.time() - start_time) * accel`. -/
def tick_new_left (t : PomodoroTimer) (now : ℚ) : ℤ :=
  computeLeft (nominal_for_tick t)
    ((now - t.start_time.getD 0) * (t.settings.time_acceleration : ℚ))

/-- Observable side effects of one loop iteration: the terminal bell, the
phase-completion notifications, and the one-shot low-time warning. -/
inductive TimerEvent where
  | bell
  | workComplete (isLongBreak : Bool)
  | breakFinished
  | lowTimeWarning
  deriving DecidableEq

/-- The notifications the transition branch of `_run_timer` sends, keyed on
the phase that just ended (captured before the transition); the break kind in
the work-completion message is computed from the already-incremented
`cycles_completed`.  A `PAUSED` (or `IDLE`) phase ending sends nothing. -/
def completion_events (t : PomodoroTimer) : List TimerEvent :=
  if t.current_state = State.WORK then
    [TimerEvent.workComplete
      (decide ((t.transition_to_next_state).cycles_completed %
        t.settings.cycles_before_long_break = 0))]
  else if t.current_state = State.SHORT_BREAK ∨ t.current_state = State.LONG_BREAK then
    [TimerEvent.breakFinished]
  else []

/-- One iteration of the `while self.is_running` body of `_run_timer`:
if `pause_timer` is set the iteration only sleeps; otherwise, when the
previous `time_left` is `<= 0` it rings the bell, transitions, notifies, and
resets `start_time` and the loop-local `notification_sent`; otherwise it
recomputes `time_left` from the absolute elapsed time and possibly fires the
one-shot low-time warning (threshold 60 seconds, `WORK` only). -/
def run_timer_tick (t : PomodoroTimer) (notification_sent : Bool) (now : ℚ) :
    PomodoroTimer × Bool × List TimerEvent :=
  if t.pause_timer then
    (t, notification_sent, [])
  else if t.time_left ≤ 0 then
    ({ t.transition_to_next_state with start_time := some now }, false,
      TimerEvent.bell :: completion_events t)
  else
    let t2 := { t with time_left := tick_new_left t now }
    if t2.current_state = State.WORK ∧ t2.time_left ≤ 60 ∧ notification_sent = false then
      (t2, true, [TimerEvent.lowTimeWarning])
    else
      (t2, notification_sent, [])

/-- The session-startup path shared by `curses_main` and `terminal_main`:
`timer.is_running = True` is assigned directly and then `timer.start()` is
called. -/
def sessionStartup (s : PomodoroSettings) (now : ℚ) : PomodoroTimer :=
  ({ PomodoroTimer.init s with is_running := true }).start now

/-- States of the timer reachable from construction through the session
startup path, the control-surface commands (each at an arbitrary clock
reading), and iterations of the background loop. -/
inductive Reachable : PomodoroTimer → Prop where
  | boot (s : PomodoroSettings) : Reachable (PomodoroTimer.init s)
  | startup (s : PomodoroSettings) (now : ℚ) : Reachable (sessionStartup s now)
  | step_start (t : PomodoroTimer) (now : ℚ) :
      Reachable t → Reachable (t.start now)
  | step_pause (t : PomodoroTimer) : Reachable t → Reachable t.pause
  | step_resume (t : PomodoroTimer) (now : ℚ) :
      Reachable t → Reachable (t.resume now)
  | step_skip (t : PomodoroTimer) (now : ℚ) :
      Reachable t → Reachable (t.skip now)
  | step_reset (t : PomodoroTimer) : Reachable t → Reachable t.reset
  | step_tick (t : PomodoroTimer) (notif : Bool) (now : ℚ) :
      Reachable t → Reachable (run_timer_tick t notif now).1

/-- Default settings: 25/5/15 minutes, 4 cycles, no acceleration. -/
def defaultSettings : PomodoroSettings := {}

/-- A 30-second work / 30-second break configuration (reachable via the
CLI's `--work`/`--short-break` flags do not allow sub-minute values, but the
dataclass itself places no constraint; used to exercise the 60-second
warning threshold). -/
def shortWorkSettings : PomodoroSettings :=
  { work_duration := 30, short_break_duration := 30, long_break_duration := 60 }

/-- A configuration with a zero-length short break (`--short-break 0` is
accepted by `parse_arguments` and multiplied by 60). -/
def zeroBreakSettings : PomodoroSettings :=
  { work_duration := 2, short_break_duration := 0, long_break_duration := 60 }

/-- A running `WORK` timer whose `time_left` has already been driven to 0 by
the recomputation branch; the next loop iteration will transition. -/
def tZero : PomodoroTimer :=
  { settings := defaultSettings
    current_state := State.WORK
    time_left := 0
    cycles_completed := 0
    is_running := true
    pause_timer := false
    start_time := some 0 }

/-- Start at clock 0, then pause: the pre-pause phase was `WORK` with the
full 1500 seconds remaining. -/
def pausedWork : PomodoroTimer :=
  ((PomodoroTimer.init defaultSettings).start 0).pause

/-- `pause()` immediately followed by `resume()` at the same clock reading. -/
def pausedResumed : PomodoroTimer := pausedWork.resume 0

/-- Zero-break scenario: the state the loop reaches after `start()` at clock
0 followed by one recomputation iteration at clock 2, by which time the whole
2-second work phase has elapsed and `time_left` has been driven to 0 (the
equality with the post-iteration state is proved in
`double_transition_zero_break`). -/
def zWork : PomodoroTimer :=
  { settings := zeroBreakSettings
    current_state := State.WORK
    time_left := 0
    cycles_completed := 0
    is_running := true
    pause_timer := false
    start_time := some 0 }

/-- Short-work scenario: freshly started `WORK` phase of 30 seconds. -/
def sw0 : PomodoroTimer := (PomodoroTimer.init shortWorkSettings).start 0

/-- First loop iteration of the short-work scenario: `time_left = 30 <= 60`,
so the low-time warning fires and the loop-local flag becomes `true`. -/
def swTick1 : PomodoroTimer × Bool × List TimerEvent := run_timer_tick sw0 false 0

/-- Two `skip()` calls from the warned `WORK` phase: into the short break and
back into a brand new `WORK` phase.  The loop-local flag is untouched by
`skip`. -/
def swSkipped : PomodoroTimer := (swTick1.1.skip 0).skip 0

/-- The next loop iteration of the new `WORK` phase, with the loop-local flag
still carrying the value left by `swTick1`. -/
def swTick2 : PomodoroTimer × Bool × List TimerEvent :=
  run_timer_tick swSkipped swTick1.2.1 0

/-! ### Helper lemmas -/

/-- While `pause_timer` is set, one loop iteration leaves everything as is. -/
lemma tick_paused (t : PomodoroTimer) (notif : Bool) (now : ℚ)
    (hp : t.pause_timer = true) :
    run_timer_tick t notif now = (t, notif, []) := by
  unfold run_timer_tick
  rw [hp]
  simp

/-- When `time_left <= 0` and the timer is not paused, one loop iteration is
the transition branch. -/
lemma tick_transition (t : PomodoroTimer) (notif : Bool) (now : ℚ)
    (hp : t.pause_timer = false) (h : t.time_left ≤ 0) :
    run_timer_tick t notif now =
      ({ t.transition_to_next_state with start_time := some now }, false,
        TimerEvent.bell :: completion_events t) := by
  unfold run_timer_tick
  rw [hp]
  simp [h]

/-- When `time_left > 0` and the timer is not paused, the iteration's timer
component is the recomputation of `time_left`. -/
lemma tick_fst_compute (t : PomodoroTimer) (notif : Bool) (now : ℚ)
    (hp : t.pause_timer = false) (h : ¬ t.time_left ≤ 0) :
    (run_timer_tick t notif now).1 = { t with time_left := tick_new_left t now } := by
  unfold run_timer_tick
  rw [hp]
  simp only [Bool.false_eq_true, if_false, h, if_neg]
  split <;> rfl

/-- Recomputation iteration in which the low-time warning condition holds. -/
lemma tick_compute_fire (t : PomodoroTimer) (notif : Bool) (now : ℚ)
    (hp : t.pause_timer = false) (h : ¬ t.time_left ≤ 0)
    (hcond : t.current_state = State.WORK ∧ tick_new_left t now ≤ 60 ∧ notif = false) :
    run_timer_tick t notif now =
      ({ t with time_left := tick_new_left t now }, true, [TimerEvent.lowTimeWarning]) := by
  unfold run_timer_tick
  rw [hp]
  simp [h, hcond.1, hcond.2.1, hcond.2.2]

/-- Recomputation iteration in which the warning condition fails. -/
lemma tick_compute_nofire (t : PomodoroTimer) (notif : Bool) (now : ℚ)
    (hp : t.pause_timer = false) (h : ¬ t.time_left ≤ 0)
    (hcond : ¬ (t.current_state = State.WORK ∧ tick_new_left t now ≤ 60 ∧ notif = false)) :
    run_timer_tick t notif now =
      ({ t with time_left := tick_new_left t now }, notif, []) := by
  unfold run_timer_tick
  rw [hp]
  simp only [Bool.false_eq_true, if_false, h, if_neg]
  rw [if_neg]
  simpa using hcond

/-- The transition function only ever produces the three live phases. -/
lemma transition_state_cases (t : PomodoroTimer) :
    (t.transition_to_next_state).current_state = State.WORK ∨
    (t.transition_to_next_state).current_state = State.SHORT_BREAK ∨
    (t.transition_to_next_state).current_state = State.LONG_BREAK := by
  unfold PomodoroTimer.transition_to_next_state
  split
  · split <;> simp
  · simp

/-- The transition function does not touch the pause flag. -/
lemma transition_pause_timer (t : PomodoroTimer) :
    (t.transition_to_next_state).pause_timer = t.pause_timer := by
  unfold PomodoroTimer.transition_to_next_state
  split
  · split <;> rfl
  · rfl

/-- With positive configured durations the transition function always
installs a positive `time_left`. -/
lemma transition_time_left_pos (t : PomodoroTimer)
    (hw : 0 < t.settings.work_duration)
    (hs : 0 < t.settings.short_break_duration)
    (hl : 0 < t.settings.long_break_duration) :
    0 < (t.transition_to_next_state).time_left := by
  unfold PomodoroTimer.transition_to_next_state
  split
  · split <;> simp <;> omega
  · simp
    omega

/-- Truncation toward zero agrees with the floor on nonnegative inputs. -/
lemma pyInt_eq_floor (q : ℚ) (h : 0 ≤ q) : pyInt q = ⌊q⌋ := by
  rw [pyInt, Rat.floor_def, Int.tdiv_eq_ediv (Rat.num_nonneg.mpr h) (by positivity)]

/-- The low-time warning is never among the completion notifications. -/
lemma lowTimeWarning_not_mem_completion (t : PomodoroTimer) :
    TimerEvent.lowTimeWarning ∉ completion_events t := by
  unfold completion_events
  split
  · simp
  · split <;> simp

/-- The bell is not rung by a recomputation iteration. -/
lemma bell_not_mem_compute (t : PomodoroTimer) (notif : Bool) (now : ℚ)
    (hp : t.pause_timer = false) (h : ¬ t.time_left ≤ 0) :
    TimerEvent.bell ∉ (run_timer_tick t notif now).2.2 := by
  unfold run_timer_tick
  rw [hp]
  simp only [Bool.false_eq_true, if_false, h, if_neg]
  split <;> simp

/-! ### Claim theorems -/

/-- Claim C1: the claim says `pause()` then `resume()` restores the pre-pause
phase and remaining time.  The code does not: `pause()` overwrites the phase
field with the `Paused` tag, and `resume()` delegates to `start()`, whose
comment says "Restore the previous state before pausing" but whose body only
re-seeds from `Idle` and otherwise leaves the phase untouched.  Evaluated at
the failing input (start at clock 0 in the default configuration, pause with
1500 seconds left, resume immediately): the phase stays `PAUSED` instead of
returning to `WORK`, and the very next loop iteration at clock 5 recomputes
`time_left` from the long-break duration (900 - 5 = 895) rather than
continuing the work phase (1500 - 5 = 1495). -/
theorem pause_resume_divergence :
    pausedWork.current_state = State.PAUSED ∧
    pausedWork.time_left = 1500 ∧
    pausedResumed.current_state = State.PAUSED ∧
    ¬ pausedResumed.current_state = State.WORK ∧
    pausedResumed.time_left = 1500 ∧
    pausedResumed.pause_timer = false ∧
    pausedResumed.is_running = true ∧
    (run_timer_tick pausedResumed false 5).1.time_left = 895 := by
  refine ⟨by decide, by decide, by decide, by decide, by decide, by decide, by decide, ?_⟩
  rw [tick_fst_compute _ _ _ (by decide) (by decide)]
  show tick_new_left pausedResumed 5 = 895
  have h1 : nominal_for_tick pausedResumed = 900 := by decide
  have h2 : pausedResumed.start_time = some 0 := by decide
  have h3 : pausedResumed.settings.time_acceleration = 1 := by decide
  rw [tick_new_left, h1, h2, h3]
  norm_num [computeLeft, pyInt]

/-- Claim C3: the transition function applied in `Work` increments
`cycles_completed` by exactly 1 and selects `LongBreak` with the nominal
long-break duration exactly when the new count is divisible by
`cycles_before_long_break`, otherwise `ShortBreak` with the nominal
short-break duration; applied in either break it yields `Work` with the
nominal work duration and an unchanged count.  The positivity hypothesis on
the threshold reflects that Python's `%` raises on a zero modulus. -/
theorem transition_function_spec (t : PomodoroTimer)
    (hcbl : 0 < t.settings.cycles_before_long_break) :
    (t.current_state = State.WORK →
      (t.transition_to_next_state).cycles_completed = t.cycles_completed + 1 ∧
      ((t.cycles_completed + 1) % t.settings.cycles_before_long_break = 0 →
        (t.transition_to_next_state).current_state = State.LONG_BREAK ∧
        (t.transition_to_next_state).time_left = (t.settings.long_break_duration : ℤ)) ∧
      (¬ (t.cycles_completed + 1) % t.settings.cycles_before_long_break = 0 →
        (t.transition_to_next_state).current_state = State.SHORT_BREAK ∧
        (t.transition_to_next_state).time_left = (t.settings.short_break_duration : ℤ)))
    ∧ ((t.current_state = State.SHORT_BREAK ∨ t.current_state = State.LONG_BREAK) →
      (t.transition_to_next_state).current_state = State.WORK ∧
      (t.transition_to_next_state).time_left = (t.settings.work_duration : ℤ) ∧
      (t.transition_to_next_state).cycles_completed = t.cycles_completed) := by
  constructor
  · intro hw
    unfold PomodoroTimer.transition_to_next_state
    rw [if_pos hw]
    by_cases hm : (t.cycles_completed + 1) % t.settings.cycles_before_long_break = 0
    · rw [if_pos hm]
      exact ⟨rfl, fun _ => ⟨rfl, rfl⟩, fun hn => absurd hm hn⟩
    · rw [if_neg hm]
      exact ⟨rfl, fun hm2 => absurd hm2 hm, fun _ => ⟨rfl, rfl⟩⟩
  · intro hb
    have hne : ¬ t.current_state = State.WORK := by
      rcases hb with h | h <;> simp [h]
    unfold PomodoroTimer.transition_to_next_state
    rw [if_neg hne]
    exact ⟨rfl, rfl, rfl⟩

/-- Witness for C3 at a concrete running work phase with zero completed
cycles: the transition goes to the short break and the count becomes 1. -/
theorem transition_function_spec_witness :
    (tZero.transition_to_next_state).cycles_completed = 1 ∧
    (tZero.transition_to_next_state).current_state = State.SHORT_BREAK := by
  have h := (transition_function_spec tZero (by decide)).1 (by decide)
  exact ⟨h.1, (h.2.2 (by decide)).1⟩

/-- Claim C5 (amended): `skip()` invokes the transition function regardless
of remaining time, resets `phase_start_timestamp` to now, and installs the
new phase's full nominal duration — but it leaves `pause_timer` unchanged
rather than clearing it, and from the `Paused` tag it lands in `Work` with
the full work duration and an unchanged cycle count regardless of which
phase was active before the pause. -/
theorem skip_spec_amended (t : PomodoroTimer) (now : ℚ) :
    ((t.current_state = State.SHORT_BREAK ∨ t.current_state = State.LONG_BREAK) →
      (t.skip now).current_state = State.WORK ∧
      (t.skip now).time_left = (t.settings.work_duration : ℤ) ∧
      (t.skip now).cycles_completed = t.cycles_completed)
    ∧ (t.current_state = State.PAUSED →
      (t.skip now).current_state = State.WORK ∧
      (t.skip now).time_left = (t.settings.work_duration : ℤ) ∧
      (t.skip now).cycles_completed = t.cycles_completed)
    ∧ (t.current_state = State.WORK →
      (t.skip now).cycles_completed = t.cycles_completed + 1 ∧
      ((t.skip now).current_state = State.SHORT_BREAK ∧
        (t.skip now).time_left = (t.settings.short_break_duration : ℤ) ∨
      (t.skip now).current_state = State.LONG_BREAK ∧
        (t.skip now).time_left = (t.settings.long_break_duration : ℤ)))
    ∧ (t.skip now).start_time = some now
    ∧ (t.skip now).pause_timer = t.pause_timer := by
  by_cases hw : t.current_state = State.WORK
  · by_cases hm : (t.cycles_completed + 1) % t.settings.cycles_before_long_break = 0 <;>
      simp [PomodoroTimer.skip, PomodoroTimer.transition_to_next_state, hw, hm]
  · simp [PomodoroTimer.skip, PomodoroTimer.transition_to_next_state, hw]

/-- Counterexample for C5 as stated: a `skip()` while paused (pre-pause
phase `Work`, cycle count 0) leaves the pause flag set instead of clearing
it, lands in `Work` rather than one phase forward from the pre-pause phase,
and does not increment the cycle count. -/
theorem skip_keeps_pause_flag :
    pausedWork.pause_timer = true ∧
    (pausedWork.skip 1).pause_timer = true ∧
    (pausedWork.skip 1).current_state = State.WORK ∧
    (pausedWork.skip 1).cycles_completed = 0 := by decide

/-- Witness for C5 (amended) at the concrete paused state. -/
theorem skip_spec_amended_witness :
    (pausedWork.skip 1).current_state = State.WORK ∧
    (pausedWork.skip 1).start_time = some 1 ∧
    (pausedWork.skip 1).pause_timer = pausedWork.pause_timer := by
  have h := skip_spec_amended pausedWork 1
  exact ⟨(h.2.1 (by decide)).1, h.2.2.2.1, h.2.2.2.2⟩

/-- Claim C6: from any state whatsoever, `reset()` restores the four
observable fields of the initial Idle snapshot: phase `Idle`, zero remaining
time, zero completed cycles, and the running flag cleared. -/
theorem reset_idle_snapshot (t : PomodoroTimer) :
    (t.reset).current_state = State.IDLE ∧ (t.reset).time_left = 0 ∧
    (t.reset).cycles_completed = 0 ∧ (t.reset).is_running = false :=
  ⟨rfl, rfl, rfl, rfl⟩

/-- Counterexample for C7 as stated: invoking the transition function on the
freshly constructed `Idle` timer does not fail fast — the `else` branch
(commented "After any break") silently maps it to `Work` with the full work
duration. -/
theorem transition_idle_silently_work :
    (PomodoroTimer.init defaultSettings).current_state = State.IDLE ∧
    ((PomodoroTimer.init defaultSettings).transition_to_next_state).current_state
      = State.WORK ∧
    ((PomodoroTimer.init defaultSettings).transition_to_next_state).time_left
      = 1500 := by decide

/-- Claim C7 (amended): the transition function has no guard at all for
`Idle` or `Paused`; both fall into the break branch and are silently mapped
to `Work` with the full nominal work duration, cycle count unchanged. -/
theorem transition_idle_paused_amended (t : PomodoroTimer)
    (h : t.current_state = State.IDLE ∨ t.current_state = State.PAUSED) :
    (t.transition_to_next_state).current_state = State.WORK ∧
    (t.transition_to_next_state).time_left = (t.settings.work_duration : ℤ) ∧
    (t.transition_to_next_state).cycles_completed = t.cycles_completed := by
  have hne : ¬ t.current_state = State.WORK := by
    rcases h with h | h <;> simp [h]
  unfold PomodoroTimer.transition_to_next_state
  rw [if_neg hne]
  exact ⟨rfl, rfl, rfl⟩

/-- Witness for the amended C7 at the initial `Idle` timer. -/
theorem transition_idle_paused_amended_witness :
    ((PomodoroTimer.init defaultSettings).transition_to_next_state).current_state
      = State.WORK ∧
    ((PomodoroTimer.init defaultSettings).transition_to_next_state).cycles_completed
      = (PomodoroTimer.init defaultSettings).cycles_completed := by
  have h := transition_idle_paused_amended (PomodoroTimer.init defaultSettings)
    (Or.inl (by decide))
  exact ⟨h.1, h.2.2⟩

/-- Claim C10: `skip()` while `Idle` is not ignored: the timer moves to
`Work` with the full nominal work duration, `start_time` is reset to now,
and the cycle count is unchanged. -/
theorem skip_from_idle (t : PomodoroTimer) (now : ℚ)
    (h : t.current_state = State.IDLE) :
    (t.skip now).current_state = State.WORK ∧
    (t.skip now).time_left = (t.settings.work_duration : ℤ) ∧
    (t.skip now).start_time = some now ∧
    (t.skip now).cycles_completed = t.cycles_completed := by
  have hne : ¬ t.current_state = State.WORK := by simp [h]
  unfold PomodoroTimer.skip PomodoroTimer.transition_to_next_state
  rw [if_neg hne]
  exact ⟨rfl, rfl, rfl, rfl⟩

/-- Witness for C10 at the freshly constructed timer, skipped at clock 7. -/
theorem skip_from_idle_witness :
    ((PomodoroTimer.init defaultSettings).skip 7).current_state = State.WORK ∧
    ((PomodoroTimer.init defaultSettings).skip 7).time_left = 1500 ∧
    ((PomodoroTimer.init defaultSettings).skip 7).start_time = some 7 ∧
    ((PomodoroTimer.init defaultSettings).skip 7).cycles_completed = 0 := by
  have h := skip_from_idle (PomodoroTimer.init defaultSettings) 7 (by decide)
  exact ⟨h.1, h.2.1, h.2.2.1, h.2.2.2⟩

/-- Counterexample for C2 as stated: the loop has no transition-pending
flag — the transition branch is guarded only by re-testing
`time_left <= 0`.  With a zero-length short break (`--short-break 0` passes
the CLI unvalidated), starting the 2-second work phase at clock 0 and
letting the whole phase elapse by clock 2, the iteration after the
`Work -> ShortBreak` transition observes `time_left = 0` again and
immediately re-triggers a second transition: two bells on two consecutive
iterations for the single work-phase zero-crossing. -/
theorem double_transition_zero_break :
    (run_timer_tick ((PomodoroTimer.init zeroBreakSettings).start 0) false 2).1 = zWork ∧
    TimerEvent.bell ∈ (run_timer_tick zWork false 2).2.2 ∧
    TimerEvent.bell ∈
      (run_timer_tick (run_timer_tick zWork false 2).1 false 2).2.2 := by
  have h1 := tick_transition zWork false 2 (by decide) (by decide)
  have h2 : (run_timer_tick zWork false 2).1
      = { zWork.transition_to_next_state with start_time := some 2 } := by rw [h1]
  have h3 := tick_transition (run_timer_tick zWork false 2).1 false 2
    (by rw [h2]; decide) (by rw [h2]; decide)
  refine ⟨?_, by rw [h1]; simp, by rw [h3]; simp⟩
  rw [tick_fst_compute _ _ _ (by decide) (by decide)]
  have hnl : tick_new_left ((PomodoroTimer.init zeroBreakSettings).start 0) 2 = 0 := by
    have ha : nominal_for_tick ((PomodoroTimer.init zeroBreakSettings).start 0) = 2 := by
      decide
    have hb : ((PomodoroTimer.init zeroBreakSettings).start 0).start_time = some 0 := by
      decide
    have hc : ((PomodoroTimer.init zeroBreakSettings).start 0).settings.time_acceleration
        = 1 := by decide
    rw [tick_new_left, ha, hb, hc]
    norm_num [computeLeft, pyInt]
  rw [hnl]
  decide

/-- Claim C2 (amended): with positive configured durations, each
zero-crossing produces exactly one transition.  The guard is not an explicit
pending/applied flag but the fact that the transition branch installs the
next phase's full (positive) duration into `time_left`, so the re-test
`time_left <= 0` fails on every subsequent iteration until the next genuine
zero-crossing, whatever clock reading that iteration observes. -/
theorem single_transition_per_crossing (t : PomodoroTimer) (notif : Bool) (now : ℚ)
    (hw : 0 < t.settings.work_duration)
    (hs : 0 < t.settings.short_break_duration)
    (hl : 0 < t.settings.long_break_duration)
    (hp : t.pause_timer = false) (h0 : t.time_left ≤ 0) :
    TimerEvent.bell ∈ (run_timer_tick t notif now).2.2 ∧
    0 < (run_timer_tick t notif now).1.time_left ∧
    ∀ (notif2 : Bool) (now2 : ℚ),
      TimerEvent.bell ∉ (run_timer_tick (run_timer_tick t notif now).1 notif2 now2).2.2 := by
  have h1 := tick_transition t notif now hp h0
  have hpos : 0 < (run_timer_tick t notif now).1.time_left := by
    rw [h1]
    exact transition_time_left_pos t hw hs hl
  have hp2 : (run_timer_tick t notif now).1.pause_timer = false := by
    rw [h1]
    show (t.transition_to_next_state).pause_timer = false
    rw [transition_pause_timer]
    exact hp
  exact ⟨by rw [h1]; simp, hpos,
    fun notif2 now2 => bell_not_mem_compute _ notif2 now2 hp2 (not_le.mpr hpos)⟩

/-- Witness for the amended C2: a default-configuration work phase whose
`time_left` has reached 0 transitions exactly once; the following iteration
(at any later clock reading, here 99) rings no bell. -/
theorem single_transition_per_crossing_witness :
    TimerEvent.bell ∈ (run_timer_tick tZero false 3).2.2 ∧
    0 < (run_timer_tick tZero false 3).1.time_left ∧
    TimerEvent.bell ∉ (run_timer_tick (run_timer_tick tZero false 3).1 true 99).2.2 := by
  have h := single_transition_per_crossing tZero false 3 (by decide) (by decide)
    (by decide) (by decide) (by decide)
  exact ⟨h.1, h.2.1, h.2.2 true 99⟩

/-- Claim C4: on a recomputation iteration in a non-paused running phase,
`time_left` is recomputed from the absolute elapsed-time base as
`max(0, nominal_duration(phase) - floor((now - start_time) * accel))`
(Python's `int()` coincides with the floor here since the elapsed time is
nonnegative); consequently running with acceleration factor F for wall time
`now - s` yields exactly the `time_left` of a real-speed run over the
stretched interval `(now - s) * F`, and the result is never negative. -/
theorem tick_recompute_spec (t : PomodoroTimer) (notif : Bool) (now s : ℚ)
    (hpause : t.pause_timer = false) (hleft : 0 < t.time_left)
    (hstart : t.start_time = some s) (hnow : s ≤ now)
    (hphase : t.current_state = State.WORK ∨ t.current_state = State.SHORT_BREAK ∨
      t.current_state = State.LONG_BREAK) :
    (run_timer_tick t notif now).1.time_left
      = max 0 ((nominal_for_tick t : ℤ)
          - ⌊(now - s) * (t.settings.time_acceleration : ℚ)⌋) ∧
    (run_timer_tick t notif now).1.time_left
      = (run_timer_tick { t with settings := { t.settings with time_acceleration := 1 } }
          notif (s + (now - s) * (t.settings.time_acceleration : ℚ))).1.time_left ∧
    0 ≤ (run_timer_tick t notif now).1.time_left := by
  have hne : ¬ t.time_left ≤ 0 := not_le.mpr hleft
  have h1 := tick_fst_compute t notif now hpause hne
  have helapsed : (0:ℚ) ≤ (now - s) * (t.settings.time_acceleration : ℚ) :=
    mul_nonneg (sub_nonneg.mpr hnow) (by positivity)
  have hmain : (run_timer_tick t notif now).1.time_left
      = max 0 ((nominal_for_tick t : ℤ)
          - ⌊(now - s) * (t.settings.time_acceleration : ℚ)⌋) := by
    rw [h1]
    show tick_new_left t now = _
    rw [tick_new_left, hstart]
    simp only [Option.getD_some]
    rw [computeLeft, pyInt_eq_floor _ helapsed]
  refine ⟨hmain, ?_, by rw [hmain]; exact le_max_left _ _⟩
  have h2 := tick_fst_compute
    { t with settings := { t.settings with time_acceleration := 1 } } notif
    (s + (now - s) * (t.settings.time_acceleration : ℚ)) hpause hne
  rw [h1, h2]
  show computeLeft (nominal_for_tick t)
      ((now - t.start_time.getD 0) * (t.settings.time_acceleration : ℚ))
    = computeLeft (nominal_for_tick t)
      ((s + (now - s) * (t.settings.time_acceleration : ℚ) - t.start_time.getD 0)
        * ((1:ℕ) : ℚ))
  rw [hstart]
  simp only [Option.getD_some]
  congr 1
  push_cast
  ring

/-- Witness for C4 at the short-work scenario observed at clock 2:
the recomputed `time_left` is nonnegative. -/
theorem tick_recompute_spec_witness :
    0 ≤ (run_timer_tick sw0 false 2).1.time_left := by
  have h := tick_recompute_spec sw0 false 2 0 (by decide) (by decide) (by decide)
    (by norm_num) (Or.inl (by decide))
  exact h.2.2

/-- In the short-work scenario the first iteration recomputes the full 30
seconds (no time has elapsed yet). -/
lemma sw0_new_left : tick_new_left sw0 0 = 30 := by
  have ha : nominal_for_tick sw0 = 30 := by decide
  have hb : sw0.start_time = some 0 := by decide
  have hc : sw0.settings.time_acceleration = 1 := by decide
  rw [tick_new_left, ha, hb, hc]
  norm_num [computeLeft, pyInt]

/-- The first iteration of the short-work scenario fires the low-time
warning (30 <= 60) and sets the loop-local flag. -/
lemma swTick1_eq :
    swTick1 = ({ sw0 with time_left := 30 }, true, [TimerEvent.lowTimeWarning]) := by
  rw [swTick1, tick_compute_fire sw0 false 0 (by decide) (by decide)
    ⟨by decide, by rw [sw0_new_left]; norm_num, rfl⟩, sw0_new_left]

/-- Skipping twice from the warned work phase lands in a brand new `WORK`
phase with the full 30-second duration and one completed cycle. -/
lemma swSkipped_eq :
    swSkipped =
      { settings := shortWorkSettings
        current_state := State.WORK
        time_left := 30
        cycles_completed := 1
        is_running := true
        pause_timer := false
        start_time := some 0 } := by
  rw [swSkipped, swTick1_eq]
  decide

/-- Counterexample for C8 as stated: the one-shot flag is a loop-local
variable, reset only by the transition branch of the loop itself; a
transition caused by `skip()` does not clear it.  Concretely (work = 30 s,
short break = 30 s): the first iteration of the initial `Work` phase fires
the warning; two `skip()` calls enter a brand new `Work` phase whose
remaining time 30 is already at or below the 60-second threshold; yet the
next iteration of the loop fires nothing — the new `Work` phase never gets
its warning, because the flag was never cleared on those phase starts. -/
theorem warning_not_reset_by_skip :
    TimerEvent.lowTimeWarning ∈ swTick1.2.2 ∧
    swSkipped.current_state = State.WORK ∧
    swSkipped.time_left = 30 ∧
    swTick2.2.2 = [] ∧
    swTick2.2.1 = true := by
  have hfl : swTick1.2.1 = true := by rw [swTick1_eq]
  have h3 : swTick2 = ({ swSkipped with time_left := tick_new_left swSkipped 0 },
      true, []) := by
    rw [swTick2, hfl]
    exact tick_compute_nofire swSkipped true 0
      (by rw [swSkipped_eq]) (by rw [swSkipped_eq]; decide)
      (fun h => absurd h.2.2 (by decide))
  exact ⟨by rw [swTick1_eq]; simp, by rw [swSkipped_eq], by rw [swSkipped_eq],
    by rw [h3], by rw [h3]⟩

/-- Claim C8 (amended): within an uninterrupted `Work` phase the warning
fires at most once — it fires only on a recomputation iteration with the
loop-local flag unset, and that iteration sets the flag; the flag is cleared
exactly by the loop's own transition branch.  (Transitions performed by
`skip()` bypass the loop and leave the flag as is, which is what the
counterexample exploits.) -/
theorem low_time_warning_once (t : PomodoroTimer) (notif : Bool) (now : ℚ) :
    (TimerEvent.lowTimeWarning ∈ (run_timer_tick t notif now).2.2 →
      notif = false ∧ (run_timer_tick t notif now).2.1 = true)
    ∧ (t.pause_timer = false → t.time_left ≤ 0 →
      (run_timer_tick t notif now).2.1 = false) := by
  by_cases hp : t.pause_timer = true
  · rw [tick_paused t notif now hp]
    refine ⟨fun hmem => by simp at hmem, fun hpf _ => ?_⟩
    rw [hpf] at hp
    exact absurd hp (by decide)
  · have hp2 : t.pause_timer = false := by simpa using hp
    by_cases h0 : t.time_left ≤ 0
    · rw [tick_transition t notif now hp2 h0]
      refine ⟨fun hmem => ?_, fun _ _ => rfl⟩
      simp at hmem
      exact absurd hmem (lowTimeWarning_not_mem_completion t)
    · by_cases hc : t.current_state = State.WORK ∧ tick_new_left t now ≤ 60 ∧
          notif = false
      · rw [tick_compute_fire t notif now hp2 h0 hc]
        exact ⟨fun _ => ⟨hc.2.2, rfl⟩, fun _ h2 => absurd h2 h0⟩
      · rw [tick_compute_nofire t notif now hp2 h0 hc]
        exact ⟨fun hmem => by simp at hmem, fun _ h2 => absurd h2 h0⟩

/-- Witness for the amended C8: the short-work first iteration fires with
the flag unset and sets it; an iteration taking the transition branch
(default configuration, `time_left = 0`) clears it. -/
theorem low_time_warning_once_witness :
    (false = false ∧ (run_timer_tick sw0 false 0).2.1 = true)
    ∧ (run_timer_tick tZero false 3).2.1 = false := by
  constructor
  · apply (low_time_warning_once sw0 false 0).1
    rw [show run_timer_tick sw0 false 0 = swTick1 from rfl, swTick1_eq]
    simp
  · exact (low_time_warning_once tZero false 3).2 (by decide) (by decide)

/-- Claim C9: in every reachable state (construction, the session-startup
path that sets `is_running` directly before calling `start()`, the control
commands at arbitrary clock readings, and loop iterations), being in `Idle`
implies the running flag is clear and the remaining time is zero: `Idle`
states arise only from construction and `reset()`, both of which establish
exactly that, and the startup path leaves `Idle` immediately. -/
theorem idle_invariant (t : PomodoroTimer) (h : Reachable t) :
    t.current_state = State.IDLE → t.is_running = false ∧ t.time_left = 0 := by
  induction h with
  | boot s => exact fun _ => ⟨rfl, rfl⟩
  | startup s now =>
      intro hidle
      have hws : (sessionStartup s now).current_state = State.WORK := rfl
      rw [hws] at hidle
      exact absurd hidle (by decide)
  | step_start t2 now _ ih =>
      intro hidle
      unfold PomodoroTimer.start at hidle ⊢
      by_cases hc : t2.current_state = State.IDLE ∨ t2.current_state = State.PAUSED
      · rw [if_pos hc] at hidle
        by_cases hi : t2.current_state = State.IDLE
        · rw [if_pos hi] at hidle
          simp at hidle
        · rw [if_neg hi] at hidle
          simp at hidle
          exact absurd hidle hi
      · rw [if_neg hc] at hidle ⊢
        exact ih hidle
  | step_pause t2 _ ih =>
      intro hidle
      unfold PomodoroTimer.pause at hidle ⊢
      by_cases hr : t2.is_running = true
      · rw [if_pos hr] at hidle
        simp at hidle
      · rw [if_neg hr] at hidle ⊢
        exact ih hidle
  | step_resume t2 now _ ih =>
      intro hidle
      unfold PomodoroTimer.resume at hidle ⊢
      by_cases hc : t2.current_state = State.PAUSED
      · rw [if_pos hc] at hidle
        simp [PomodoroTimer.start, hc] at hidle
      · rw [if_neg hc] at hidle ⊢
        exact ih hidle
  | step_skip t2 now _ ih =>
      intro hidle
      have hsk : (t2.skip now).current_state
          = (t2.transition_to_next_state).current_state := rfl
      rw [hsk] at hidle
      rcases transition_state_cases t2 with hcs | hcs | hcs <;> rw [hcs] at hidle <;>
        exact absurd hidle (by decide)
  | step_reset t2 _ _ => exact fun _ => ⟨rfl, rfl⟩
  | step_tick t2 notif now _ ih =>
      intro hidle
      by_cases hp : t2.pause_timer = true
      · rw [tick_paused t2 notif now hp] at hidle ⊢
        exact ih hidle
      · have hp2 : t2.pause_timer = false := by simpa using hp
        by_cases h0 : t2.time_left ≤ 0
        · rw [tick_transition t2 notif now hp2 h0] at hidle
          have hsk : (({ t2.transition_to_next_state with start_time := some now }
              : PomodoroTimer)).current_state
              = (t2.transition_to_next_state).current_state := rfl
          rw [hsk] at hidle
          rcases transition_state_cases t2 with hcs | hcs | hcs <;> rw [hcs] at hidle <;>
            exact absurd hidle (by decide)
        · rw [tick_fst_compute t2 notif now hp2 h0] at hidle
          have hcid : t2.current_state = State.IDLE := hidle
          exact absurd (le_of_eq (ih hcid).2) h0

/-- Witness for C9 at the freshly constructed timer. -/
theorem idle_invariant_witness :
    (PomodoroTimer.init defaultSettings).is_running = false ∧
    (PomodoroTimer.init defaultSettings).time_left = 0 :=
  idle_invariant (PomodoroTimer.init defaultSettings)
    (Reachable.boot defaultSettings) rfl

end Pomodoro
